import Mathlib

/-!
Shallow embedding of `backend/app/settings.py` from marlenezw/llama-index-python.

The module reads environment variables, dispatches on `MODEL_PROVIDER` to one of
five provider initializers, constructs a generation client and an embedding
client, writes them into the process-wide `Settings` object, and finally sets
the chunking parameters.  We model the environment as an association list, the
shared `Settings` object as an explicit record threaded through each function,
and Python exceptions (`ValueError` from `int`/`float`, `KeyError` from dict
lookup, the explicit `raise ValueError` for an unknown provider) as an
`Except` whose error carries both the error value and the state of the shared
settings at the moment the exception is raised (Python mutations performed
before the raise remain visible).
-/

set_option autoImplicit false

namespace LlamaSettings

/-- The process environment: a finite map from variable names to string values,
modelling `os.environ`.  `os.getenv` is lookup returning `Option`. -/
def Env : Type := List (String × String)

/-- `os.getenv(key)`: the value of `key` in the environment, or `none`. -/
def getenv (env : Env) (key : String) : Option String :=
  (env.find? (fun p => p.1 = key)).map (fun p => p.2)

/-- Numeric value of a list of decimal digit characters. -/
def digitsVal (l : List Char) : Nat :=
  l.foldl (fun a c => a * 10 + (c.toNat - 48)) 0

/-- Parse a nonempty all-digit character list, as the body of Python `int`. -/
def digitsToNat (l : List Char) : Option Nat :=
  if l ≠ [] ∧ l.all (fun c => c.isDigit) then some (digitsVal l) else none

/-- Python `int(s)` on a decimal string literal: an optional sign followed by
one or more digits; anything else raises `ValueError`.  (Python's `int` also
accepts surrounding whitespace and underscore separators; no input in this
module's behaviour space uses those forms, so they are out of the modelled
grammar.) -/
def pyInt (s : String) : Option Int :=
  match s.data with
  | '-' :: rest => (digitsToNat rest).map (fun n => -(n : Int))
  | '+' :: rest => (digitsToNat rest).map (fun n => (n : Int))
  | l => (digitsToNat l).map (fun n => (n : Int))

/-- Split a character list at every `.`, as `s.split(".")` would. -/
def splitOnDot (l : List Char) : List (List Char) :=
  match l with
  | [] => [[]]
  | ch :: rest =>
      if ch = '.' then [] :: splitOnDot rest
      else
        match splitOnDot rest with
        | [] => [[ch]]
        | p :: ps => (ch :: p) :: ps

/-- Magnitude part of Python `float(s)`: `digits`, `digits.digits`,
`digits.` or `.digits`.  The value is returned as an exact rational. -/
def pyFloatMag (s : String) : Option Rat :=
  match splitOnDot s.data with
  | [ip] =>
      if ip ≠ [] ∧ ip.all (fun c => c.isDigit) then
        some ((digitsVal ip : Nat) : Rat)
      else none
  | [ip, fp] =>
      if (ip ≠ [] ∨ fp ≠ []) ∧ ip.all (fun c => c.isDigit) ∧
          fp.all (fun c => c.isDigit) then
        some (((digitsVal ip : Nat) : Rat) +
          ((digitsVal fp : Nat) : Rat) / ((10 : Rat) ^ fp.length))
      else none
  | _ => none

/-- Python `float(s)` on a decimal string: optional sign then a decimal
magnitude; anything else raises `ValueError`.  (Exponent, `inf`/`nan` and
whitespace forms are outside this module's behaviour space.) -/
def pyFloat (s : String) : Option Rat :=
  match s.data with
  | '-' :: rest => (pyFloatMag (String.mk rest)).map (fun q => -q)
  | '+' :: rest => pyFloatMag (String.mk rest)
  | _ => pyFloatMag s

/-- `llama_index.core.constants.DEFAULT_TEMPERATURE` (0.1), the float constant
used as the `os.getenv` fallback for `LLM_TEMPERATURE` and also the
constructor default of the OpenAI / AzureOpenAI llama-index clients. -/
def DEFAULT_TEMPERATURE : Rat := 1 / 10

/-- `llama_index.llms.ollama.base.DEFAULT_REQUEST_TIMEOUT` (30.0), the float
constant used as the `os.getenv` fallback for `OLLAMA_REQUEST_TIMEOUT`. -/
def DEFAULT_REQUEST_TIMEOUT : Rat := 30

/-- The fixed OAuth audience passed to `get_bearer_token_provider`. -/
def azure_cognitive_scope : String := "https://cognitiveservices.azure.com/.default"

/-- The errors this module can raise.  The spec's taxonomy calls all of them
`ConfigurationError`; in the Python source they are the explicit
`ValueError(f"Invalid model provider: ...")`, the `ValueError` raised by
`int(...)`/`float(...)` on an unparsable string, and the `KeyError` raised by
a model-name-map lookup on an absent key. -/
inductive ConfigurationError where
  /-- `raise ValueError(f"Invalid model provider: {model_provider}")`:
  carries the offending `MODEL_PROVIDER` value (`none` when unset). -/
  | invalidProvider (value : Option String)
  /-- `ValueError` from `int(v)` or `float(v)`: carries the offending text. -/
  | invalidNumber (value : String)
  /-- `KeyError` from `model_map[k]` / `embed_model_map[k]`: carries the
  absent key (`none` when the looked-up environment variable was unset). -/
  | unknownModelKey (key : Option String)
  deriving DecidableEq, Repr

/-- A bearer-token-provider callback as returned by
`get_bearer_token_provider(DefaultAzureCredential(), scope)`.  Each call to
the external credential provider yields a distinct callback; we give each one
a sequence number `id` so distinct acquisitions are distinguishable, plus the
audience `scope` it was requested for. -/
structure TokenProvider where
  id : Nat
  scope : String
  deriving DecidableEq, Repr

/-- `get_bearer_token_provider(credential, scope)`: issues the next callback
from the external credential provider.  `c` counts callbacks issued so far. -/
def get_bearer_token_provider (scope : String) (c : Nat) : TokenProvider × Nat :=
  (⟨c, scope⟩, c + 1)

/-- Constructor arguments of `Ollama(base_url=..., model=..., request_timeout=...)`. -/
structure OllamaLLM where
  base_url : String
  model : Option String
  request_timeout : Rat
  deriving DecidableEq, Repr

/-- Constructor arguments of `OllamaEmbedding(base_url=..., model_name=...)`. -/
structure OllamaEmbeddingClient where
  base_url : String
  model_name : Option String
  deriving DecidableEq, Repr

/-- Constructor arguments of `OpenAI(model=..., temperature=..., max_tokens=...)`. -/
structure OpenAILLM where
  model : Option String
  temperature : Rat
  max_tokens : Option Int
  deriving DecidableEq, Repr

/-- Constructor arguments of `OpenAIEmbedding(model=..., dimensions=...)`;
`dimensions = none` means the client is built without a fixed dimension and
the provider default applies. -/
structure OpenAIEmbeddingClient where
  model : Option String
  dimensions : Option Int
  deriving DecidableEq, Repr

/-- Constructor arguments of `AzureOpenAI(**llm_config)`. -/
structure AzureOpenAILLM where
  engine : Option String
  azure_endpoint : Option String
  azure_ad_token_provider : TokenProvider
  use_azure_ad : Bool
  temperature : Rat
  max_tokens : Option Int
  deriving DecidableEq, Repr

/-- Constructor arguments of `AzureOpenAIEmbedding(**embedding_config)`. -/
structure AzureOpenAIEmbeddingClient where
  azure_endpoint : Option String
  azure_deployment : Option String
  azure_ad_token_provider : TokenProvider
  use_azure_ad : Bool
  dimensions : Option Int
  deriving DecidableEq, Repr

/-- Constructor arguments of `Anthropic(model=...)`; the model string has
already passed the `model_map` lookup, so it is a full vendor identifier. -/
structure AnthropicLLM where
  model : String
  deriving DecidableEq, Repr

/-- Constructor arguments of `HuggingFaceEmbedding(model_name=...)`. -/
structure HuggingFaceEmbeddingClient where
  model_name : String
  deriving DecidableEq, Repr

/-- Constructor arguments of `Gemini(model=...)`. -/
structure GeminiLLM where
  model : String
  deriving DecidableEq, Repr

/-- Constructor arguments of `GeminiEmbedding(model_name=...)`. -/
structure GeminiEmbeddingClient where
  model_name : String
  deriving DecidableEq, Repr

/-- The generation-client handle stored in `Settings.llm`: one variant per
provider SDK class this module can instantiate. -/
inductive LLMClient where
  | ollama (c : OllamaLLM)
  | openai (c : OpenAILLM)
  | azureOpenai (c : AzureOpenAILLM)
  | anthropic (c : AnthropicLLM)
  | gemini (c : GeminiLLM)
  deriving DecidableEq, Repr

/-- The embedding-client handle stored in `Settings.embed_model`. -/
inductive EmbedClient where
  | ollama (c : OllamaEmbeddingClient)
  | openai (c : OpenAIEmbeddingClient)
  | azureOpenai (c : AzureOpenAIEmbeddingClient)
  | huggingface (c : HuggingFaceEmbeddingClient)
  | gemini (c : GeminiEmbeddingClient)
  deriving DecidableEq, Repr

/-- The fields of the process-wide `llama_index.core.settings.Settings` object
that this module writes.  A field is `none` while this module has not assigned
it (whatever lazy default the library would substitute is not materialized
here). -/
structure SettingsState where
  llm : Option LLMClient
  embed_model : Option EmbedClient
  chunk_size : Option Int
  chunk_overlap : Option Int
  deriving DecidableEq, Repr

/-- The settings object with none of the four fields assigned yet. -/
def SettingsState.initial : SettingsState :=
  ⟨none, none, none, none⟩

/-- Result type of each initializer: either the updated settings together
with the credential-provider call counter, or the raised error together with
the settings and counter as they stood when the exception escaped. -/
abbrev InitResult := Except (ConfigurationError × SettingsState × Nat) (SettingsState × Nat)

/-- Look a (possibly absent) environment value up in a hard-coded model-name
map.  `model_map[os.getenv(K)]` raises `KeyError` when `os.getenv(K)` is
`None` (not a key of a `Dict[str, str]`) or a string absent from the map. -/
def mapLookup (m : List (String × String)) (k : Option String) : Option String :=
  match k with
  | none => none
  | some s => (m.find? (fun p => p.1 = s)).map (fun p => p.2)

/-- `os.getenv("OLLAMA_BASE_URL") or "http://127.0.0.1:11434"`: Python `or`
substitutes the default when the value is absent or falsy (empty string). -/
def ollama_base_url (env : Env) : String :=
  match getenv env "OLLAMA_BASE_URL" with
  | some v => if v = "" then "http://127.0.0.1:11434" else v
  | none => "http://127.0.0.1:11434"

/-- `float(os.getenv("OLLAMA_REQUEST_TIMEOUT", DEFAULT_REQUEST_TIMEOUT))`:
when the variable is absent the fallback is already a float and `float` is
the identity on it; when present the string is parsed and may raise. -/
def readRequestTimeout (env : Env) : Except ConfigurationError Rat :=
  match getenv env "OLLAMA_REQUEST_TIMEOUT" with
  | none => .ok DEFAULT_REQUEST_TIMEOUT
  | some v =>
      match pyFloat v with
      | none => .error (.invalidNumber v)
      | some t => .ok t

/-- `init_ollama`: base URL from `OLLAMA_BASE_URL` (with `or`-default, so an
empty string also falls back), numeric request timeout, then assigns the
embedding client and the generation client in source order. -/
def init_ollama (env : Env) (s : SettingsState) (c : Nat) : InitResult :=
  let base_url := ollama_base_url env
  match readRequestTimeout env with
  | .error e => .error (e, s, c)
  | .ok t =>
      let emb := EmbedClient.ollama ⟨base_url, getenv env "EMBEDDING_MODEL"⟩
      let s1 := { s with embed_model := some emb }
      let llm := LLMClient.ollama ⟨base_url, getenv env "MODEL", t⟩
      .ok ({ s1 with llm := some llm }, c)

/-- `float(os.getenv("LLM_TEMPERATURE", DEFAULT_TEMPERATURE))`: when the
variable is absent the fallback is already a float and `float` is the
identity on it; when present the string is parsed and may raise. -/
def readTemperature (env : Env) : Except ConfigurationError Rat :=
  match getenv env "LLM_TEMPERATURE" with
  | none => .ok DEFAULT_TEMPERATURE
  | some v =>
      match pyFloat v with
      | none => .error (.invalidNumber v)
      | some t => .ok t

/-- `int(x) if x is not None else None` for an optional environment value. -/
def readOptInt (x : Option String) : Except ConfigurationError (Option Int) :=
  match x with
  | none => .ok none
  | some v =>
      match pyInt v with
      | none => .error (.invalidNumber v)
      | some n => .ok (some n)

/-- `init_openai`: builds the generation client from `MODEL`,
`LLM_TEMPERATURE` and `LLM_MAX_TOKENS`, assigns it, then builds the embedding
client from `EMBEDDING_MODEL` and `EMBEDDING_DIM` and assigns it.  Parse
failures raise at the point the value is evaluated. -/
def init_openai (env : Env) (s : SettingsState) (c : Nat) : InitResult :=
  match readTemperature env with
  | .error e => .error (e, s, c)
  | .ok temp =>
      match readOptInt (getenv env "LLM_MAX_TOKENS") with
      | .error e => .error (e, s, c)
      | .ok mt =>
          let llm := LLMClient.openai ⟨getenv env "MODEL", temp, mt⟩
          let s1 := { s with llm := some llm }
          match readOptInt (getenv env "EMBEDDING_DIM") with
          | .error e => .error (e, s1, c)
          | .ok dims =>
              let emb := EmbedClient.openai ⟨getenv env "EMBEDDING_MODEL", dims⟩
              .ok ({ s1 with embed_model := some emb }, c)

/-- `init_azure_openai`: reads the deployment names, endpoint and
`LLM_MAX_TOKENS`, obtains one bearer-token-provider callback scoped to the
cognitive-services audience, builds and assigns the generation client, then
builds and assigns the embedding client with the same callback. -/
def init_azure_openai (env : Env) (s : SettingsState) (c : Nat) : InitResult :=
  let llm_deployment := getenv env "AZURE_DEPLOYMENT_NAME"
  let embedding_deployment := getenv env "EMBEDDING_MODEL"
  let azure_openai_endpoint := getenv env "AZURE_OPENAI_ENDPOINT"
  let max_tokens := getenv env "LLM_MAX_TOKENS"
  match get_bearer_token_provider azure_cognitive_scope c with
  | (token_provider, c1) =>
      match readTemperature env with
      | .error e => .error (e, s, c1)
      | .ok temp =>
          match readOptInt max_tokens with
          | .error e => .error (e, s, c1)
          | .ok mt =>
              let llm := LLMClient.azureOpenai
                ⟨llm_deployment, azure_openai_endpoint, token_provider,
                  true, temp, mt⟩
              let s1 := { s with llm := some llm }
              match readOptInt (getenv env "EMBEDDING_DIM") with
              | .error e => .error (e, s1, c1)
              | .ok dims =>
                  let emb := EmbedClient.azureOpenai
                    ⟨azure_openai_endpoint, embedding_deployment,
                      token_provider, true, dims⟩
                  .ok ({ s1 with embed_model := some emb }, c1)

/-- The hard-coded `model_map` of `init_anthropic`. -/
def anthropic_model_map : List (String × String) :=
  [("claude-3-opus", "claude-3-opus-20240229"),
   ("claude-3-sonnet", "claude-3-sonnet-20240229"),
   ("claude-3-haiku", "claude-3-haiku-20240307"),
   ("claude-2.1", "claude-2.1"),
   ("claude-instant-1.2", "claude-instant-1.2")]

/-- The hard-coded `embed_model_map` of `init_anthropic`. -/
def anthropic_embed_model_map : List (String × String) :=
  [("all-MiniLM-L6-v2", "sentence-transformers/all-MiniLM-L6-v2"),
   ("all-mpnet-base-v2", "sentence-transformers/all-mpnet-base-v2")]

/-- `init_anthropic`: resolves `MODEL` through `model_map` and assigns the
generation client, then resolves `EMBEDDING_MODEL` through
`embed_model_map` and assigns the embedding client; a failed lookup raises
`KeyError` at that point. -/
def init_anthropic (env : Env) (s : SettingsState) (c : Nat) : InitResult :=
  match mapLookup anthropic_model_map (getenv env "MODEL") with
  | none => .error (.unknownModelKey (getenv env "MODEL"), s, c)
  | some m =>
      let s1 := { s with llm := some (.anthropic ⟨m⟩) }
      match mapLookup anthropic_embed_model_map (getenv env "EMBEDDING_MODEL") with
      | none => .error (.unknownModelKey (getenv env "EMBEDDING_MODEL"), s1, c)
      | some em =>
          .ok ({ s1 with embed_model := some (.huggingface ⟨em⟩) }, c)

/-- The hard-coded `model_map` of `init_gemini`. -/
def gemini_model_map : List (String × String) :=
  [("gemini-1.5-pro-latest", "models/gemini-1.5-pro-latest"),
   ("gemini-pro", "models/gemini-pro"),
   ("gemini-pro-vision", "models/gemini-pro-vision")]

/-- The hard-coded `embed_model_map` of `init_gemini`. -/
def gemini_embed_model_map : List (String × String) :=
  [("embedding-001", "models/embedding-001"),
   ("text-embedding-004", "models/text-embedding-004")]

/-- `init_gemini`: same shape as `init_anthropic` with the Gemini maps. -/
def init_gemini (env : Env) (s : SettingsState) (c : Nat) : InitResult :=
  match mapLookup gemini_model_map (getenv env "MODEL") with
  | none => .error (.unknownModelKey (getenv env "MODEL"), s, c)
  | some m =>
      let s1 := { s with llm := some (.gemini ⟨m⟩) }
      match mapLookup gemini_embed_model_map (getenv env "EMBEDDING_MODEL") with
      | none => .error (.unknownModelKey (getenv env "EMBEDDING_MODEL"), s1, c)
      | some em =>
          .ok ({ s1 with embed_model := some (.gemini ⟨em⟩) }, c)

/-- The provider dispatch of `init_settings`: the `match model_provider`
statement, before the chunk parameters are set. -/
def providerDispatch (env : Env) (s : SettingsState) (c : Nat) : InitResult :=
  match getenv env "MODEL_PROVIDER" with
  | some "openai" => init_openai env s c
  | some "ollama" => init_ollama env s c
  | some "anthropic" => init_anthropic env s c
  | some "gemini" => init_gemini env s c
  | some "azure-openai" => init_azure_openai env s c
  | other => .error (.invalidProvider other, s, c)

/-- `Settings.chunk_size = int(os.getenv("CHUNK_SIZE", "1024"))` followed by
`Settings.chunk_overlap = int(os.getenv("CHUNK_OVERLAP", "20"))`, applied to
the state left by the provider step. -/
def setChunkParams (env : Env) (s : SettingsState) (c : Nat) : InitResult :=
  let csRaw := (getenv env "CHUNK_SIZE").getD "1024"
  match pyInt csRaw with
  | none => .error (.invalidNumber csRaw, s, c)
  | some cs =>
      let s1 := { s with chunk_size := some cs }
      let coRaw := (getenv env "CHUNK_OVERLAP").getD "20"
      match pyInt coRaw with
      | none => .error (.invalidNumber coRaw, s1, c)
      | some co =>
          .ok ({ s1 with chunk_overlap := some co }, c)

/-- `init_settings`: dispatch on `MODEL_PROVIDER` (raising on an unknown or
unset value), then set the chunk parameters.  (The function also prints
`AZURE_CONTAINER_REGISTRY_ENDPOINT` and the provider; printing does not touch
the settings, so it has no counterpart here.) -/
def init_settings (env : Env) (s : SettingsState) (c : Nat) : InitResult :=
  match providerDispatch env s c with
  | .error e => .error e
  | .ok (s1, c1) => setChunkParams env s1 c1

/-- The five provider tags accepted by the `match` in `init_settings`. -/
def validProviderTags : List (Option String) :=
  [some "openai", some "ollama", some "anthropic", some "gemini",
    some "azure-openai"]

/-- An optional environment value either absent or accepted by `float`. -/
def floatOkIfPresent (x : Option String) : Bool :=
  match x with
  | none => true
  | some v => (pyFloat v).isSome

/-- An optional environment value either absent or accepted by `int`. -/
def intOkIfPresent (x : Option String) : Bool :=
  match x with
  | none => true
  | some v => (pyInt v).isSome

/-- The environment entries read by the initializer of provider `p` are
well formed: every numeric value that is present parses, and for
anthropic / gemini the model names hit their hard-coded maps.  These are
exactly the conditions under which the initializer cannot raise. -/
def envWellFormedFor (p : String) (env : Env) : Bool :=
  match p with
  | "openai" =>
      floatOkIfPresent (getenv env "LLM_TEMPERATURE") &&
      intOkIfPresent (getenv env "LLM_MAX_TOKENS") &&
      intOkIfPresent (getenv env "EMBEDDING_DIM")
  | "ollama" => floatOkIfPresent (getenv env "OLLAMA_REQUEST_TIMEOUT")
  | "anthropic" =>
      (mapLookup anthropic_model_map (getenv env "MODEL")).isSome &&
      (mapLookup anthropic_embed_model_map (getenv env "EMBEDDING_MODEL")).isSome
  | "gemini" =>
      (mapLookup gemini_model_map (getenv env "MODEL")).isSome &&
      (mapLookup gemini_embed_model_map (getenv env "EMBEDDING_MODEL")).isSome
  | "azure-openai" =>
      floatOkIfPresent (getenv env "LLM_TEMPERATURE") &&
      intOkIfPresent (getenv env "LLM_MAX_TOKENS") &&
      intOkIfPresent (getenv env "EMBEDDING_DIM")
  | _ => false

/-- The chunk parameters (with their string defaults substituted) parse. -/
def chunkParamsOk (env : Env) : Bool :=
  (pyInt ((getenv env "CHUNK_SIZE").getD "1024")).isSome &&
  (pyInt ((getenv env "CHUNK_OVERLAP").getD "20")).isSome

end LlamaSettings

/-!
Helper lemmas: inversion of each initializer's success case, reductions of
the dispatch and of the auxiliary readers, and error-path characterizations.
-/

namespace LlamaSettings

theorem init_ollama_ok_shape (env : Env) (s : SettingsState) (c : Nat)
    (s' : SettingsState) (c' : Nat) (h : init_ollama env s c = .ok (s', c')) :
    ∃ t,
      readRequestTimeout env = .ok t ∧
      s' = { s with
        llm := some (.ollama ⟨ollama_base_url env, getenv env "MODEL", t⟩),
        embed_model := some (.ollama ⟨ollama_base_url env, getenv env "EMBEDDING_MODEL"⟩) } ∧
      c' = c := by
  simp only [init_ollama] at h
  split at h
  · simp at h
  · rename_i t ht
    simp only [Except.ok.injEq, Prod.mk.injEq] at h
    obtain ⟨hs, hc⟩ := h
    exact ⟨t, ht, hs.symm, hc.symm⟩

theorem init_openai_ok_shape (env : Env) (s : SettingsState) (c : Nat)
    (s' : SettingsState) (c' : Nat) (h : init_openai env s c = .ok (s', c')) :
    ∃ temp mt dims,
      readTemperature env = .ok temp ∧
      readOptInt (getenv env "LLM_MAX_TOKENS") = .ok mt ∧
      readOptInt (getenv env "EMBEDDING_DIM") = .ok dims ∧
      s' = { s with
        llm := some (.openai ⟨getenv env "MODEL", temp, mt⟩),
        embed_model := some (.openai ⟨getenv env "EMBEDDING_MODEL", dims⟩) } ∧
      c' = c := by
  simp only [init_openai] at h
  split at h
  · simp at h
  · rename_i temp htemp
    split at h
    · simp at h
    · rename_i mt hmt
      split at h
      · simp at h
      · rename_i dims hdims
        simp only [Except.ok.injEq, Prod.mk.injEq] at h
        obtain ⟨hs, hc⟩ := h
        exact ⟨temp, mt, dims, htemp, hmt, hdims, hs.symm, hc.symm⟩

theorem init_azure_openai_ok_shape (env : Env) (s : SettingsState) (c : Nat)
    (s' : SettingsState) (c' : Nat) (h : init_azure_openai env s c = .ok (s', c')) :
    ∃ temp mt dims,
      readTemperature env = .ok temp ∧
      readOptInt (getenv env "LLM_MAX_TOKENS") = .ok mt ∧
      readOptInt (getenv env "EMBEDDING_DIM") = .ok dims ∧
      s' = { s with
        llm := some (.azureOpenai ⟨getenv env "AZURE_DEPLOYMENT_NAME",
          getenv env "AZURE_OPENAI_ENDPOINT", ⟨c, azure_cognitive_scope⟩,
          true, temp, mt⟩),
        embed_model := some (.azureOpenai ⟨getenv env "AZURE_OPENAI_ENDPOINT",
          getenv env "EMBEDDING_MODEL", ⟨c, azure_cognitive_scope⟩, true, dims⟩) } ∧
      c' = c + 1 := by
  simp only [init_azure_openai, get_bearer_token_provider] at h
  split at h
  · simp at h
  · rename_i temp htemp
    split at h
    · simp at h
    · rename_i mt hmt
      split at h
      · simp at h
      · rename_i dims hdims
        simp only [Except.ok.injEq, Prod.mk.injEq] at h
        obtain ⟨hs, hc⟩ := h
        exact ⟨temp, mt, dims, htemp, hmt, hdims, hs.symm, hc.symm⟩

theorem init_anthropic_ok_shape (env : Env) (s : SettingsState) (c : Nat)
    (s' : SettingsState) (c' : Nat) (h : init_anthropic env s c = .ok (s', c')) :
    ∃ m em,
      mapLookup anthropic_model_map (getenv env "MODEL") = some m ∧
      mapLookup anthropic_embed_model_map (getenv env "EMBEDDING_MODEL") = some em ∧
      s' = { s with
        llm := some (.anthropic ⟨m⟩),
        embed_model := some (.huggingface ⟨em⟩) } ∧
      c' = c := by
  simp only [init_anthropic] at h
  split at h
  · simp at h
  · rename_i m hm
    split at h
    · simp at h
    · rename_i em hem
      simp only [Except.ok.injEq, Prod.mk.injEq] at h
      obtain ⟨hs, hc⟩ := h
      exact ⟨m, em, hm, hem, hs.symm, hc.symm⟩

theorem init_gemini_ok_shape (env : Env) (s : SettingsState) (c : Nat)
    (s' : SettingsState) (c' : Nat) (h : init_gemini env s c = .ok (s', c')) :
    ∃ m em,
      mapLookup gemini_model_map (getenv env "MODEL") = some m ∧
      mapLookup gemini_embed_model_map (getenv env "EMBEDDING_MODEL") = some em ∧
      s' = { s with
        llm := some (.gemini ⟨m⟩),
        embed_model := some (.gemini ⟨em⟩) } ∧
      c' = c := by
  simp only [init_gemini] at h
  split at h
  · simp at h
  · rename_i m hm
    split at h
    · simp at h
    · rename_i em hem
      simp only [Except.ok.injEq, Prod.mk.injEq] at h
      obtain ⟨hs, hc⟩ := h
      exact ⟨m, em, hm, hem, hs.symm, hc.symm⟩

theorem setChunkParams_ok_shape (env : Env) (s : SettingsState) (c : Nat)
    (s' : SettingsState) (c' : Nat) (h : setChunkParams env s c = .ok (s', c')) :
    ∃ cs co,
      pyInt ((getenv env "CHUNK_SIZE").getD "1024") = some cs ∧
      pyInt ((getenv env "CHUNK_OVERLAP").getD "20") = some co ∧
      s' = { s with chunk_size := some cs, chunk_overlap := some co } ∧
      c' = c := by
  simp only [setChunkParams] at h
  split at h
  · simp at h
  · rename_i cs hcs
    split at h
    · simp at h
    · rename_i co hco
      simp only [Except.ok.injEq, Prod.mk.injEq] at h
      obtain ⟨hs, hc⟩ := h
      exact ⟨cs, co, hcs, hco, hs.symm, hc.symm⟩

theorem providerDispatch_eq_openai (env : Env) (s : SettingsState) (c : Nat)
    (h : getenv env "MODEL_PROVIDER" = some "openai") :
    providerDispatch env s c = init_openai env s c := by
  simp only [providerDispatch, h]

theorem providerDispatch_eq_ollama (env : Env) (s : SettingsState) (c : Nat)
    (h : getenv env "MODEL_PROVIDER" = some "ollama") :
    providerDispatch env s c = init_ollama env s c := by
  simp only [providerDispatch, h]

theorem providerDispatch_eq_anthropic (env : Env) (s : SettingsState) (c : Nat)
    (h : getenv env "MODEL_PROVIDER" = some "anthropic") :
    providerDispatch env s c = init_anthropic env s c := by
  simp only [providerDispatch, h]

theorem providerDispatch_eq_gemini (env : Env) (s : SettingsState) (c : Nat)
    (h : getenv env "MODEL_PROVIDER" = some "gemini") :
    providerDispatch env s c = init_gemini env s c := by
  simp only [providerDispatch, h]

theorem providerDispatch_eq_azure (env : Env) (s : SettingsState) (c : Nat)
    (h : getenv env "MODEL_PROVIDER" = some "azure-openai") :
    providerDispatch env s c = init_azure_openai env s c := by
  simp only [providerDispatch, h]

theorem providerDispatch_invalid (env : Env) (s : SettingsState) (c : Nat)
    (h : getenv env "MODEL_PROVIDER" ∉ validProviderTags) :
    providerDispatch env s c =
      .error (.invalidProvider (getenv env "MODEL_PROVIDER"), s, c) := by
  simp only [validProviderTags, List.mem_cons, List.mem_singleton] at h
  push_neg at h
  obtain ⟨h1, h2, h3, h4, h5, _⟩ := h
  unfold providerDispatch
  split
  · rename_i heq; exact absurd heq h1
  · rename_i heq; exact absurd heq h2
  · rename_i heq; exact absurd heq h3
  · rename_i heq; exact absurd heq h4
  · rename_i heq; exact absurd heq h5
  · rfl

theorem init_settings_of_dispatch_ok (env : Env) (s : SettingsState) (c : Nat)
    (s1 : SettingsState) (c1 : Nat)
    (h : providerDispatch env s c = .ok (s1, c1)) :
    init_settings env s c = setChunkParams env s1 c1 := by
  simp only [init_settings, h]

theorem init_settings_of_dispatch_error (env : Env) (s : SettingsState) (c : Nat)
    (e : ConfigurationError × SettingsState × Nat)
    (h : providerDispatch env s c = .error e) :
    init_settings env s c = .error e := by
  simp only [init_settings, h]

theorem init_settings_ok_inv (env : Env) (s : SettingsState) (c : Nat)
    (s' : SettingsState) (c' : Nat) (h : init_settings env s c = .ok (s', c')) :
    ∃ s1 c1, providerDispatch env s c = .ok (s1, c1) ∧
      setChunkParams env s1 c1 = .ok (s', c') := by
  simp only [init_settings] at h
  split at h
  · simp at h
  · rename_i s1 c1 heq
    exact ⟨s1, c1, heq, h⟩

end LlamaSettings

namespace LlamaSettings

theorem readTemperature_none (env : Env)
    (h : getenv env "LLM_TEMPERATURE" = none) :
    readTemperature env = .ok DEFAULT_TEMPERATURE := by
  simp only [readTemperature, h]

theorem readTemperature_err (env : Env) (v : String)
    (hv : getenv env "LLM_TEMPERATURE" = some v) (hp : pyFloat v = none) :
    readTemperature env = .error (.invalidNumber v) := by
  simp only [readTemperature, hv, hp]

theorem readTemperature_error_shape (env : Env) (e : ConfigurationError)
    (h : readTemperature env = .error e) : ∃ w, e = .invalidNumber w := by
  simp only [readTemperature] at h
  split at h
  · simp at h
  · rename_i v hv
    split at h
    · simp only [Except.error.injEq] at h
      exact ⟨v, h.symm⟩
    · simp at h

theorem readOptInt_none : readOptInt none = .ok none := rfl

theorem readOptInt_some_ok (v : String) (n : Int) (h : pyInt v = some n) :
    readOptInt (some v) = .ok (some n) := by
  simp only [readOptInt, h]

theorem readOptInt_some_err (v : String) (h : pyInt v = none) :
    readOptInt (some v) = .error (.invalidNumber v) := by
  simp only [readOptInt, h]

theorem readOptInt_error_shape (x : Option String) (e : ConfigurationError)
    (h : readOptInt x = .error e) : ∃ w, e = .invalidNumber w := by
  simp only [readOptInt] at h
  split at h
  · simp at h
  · rename_i v
    split at h
    · simp only [Except.error.injEq] at h
      exact ⟨v, h.symm⟩
    · simp at h

theorem readTemperature_ok_of_wf (env : Env)
    (h : floatOkIfPresent (getenv env "LLM_TEMPERATURE") = true) :
    ∃ t, readTemperature env = .ok t := by
  cases hT : getenv env "LLM_TEMPERATURE" with
  | none => exact ⟨DEFAULT_TEMPERATURE, readTemperature_none env hT⟩
  | some v =>
      rw [hT] at h
      simp only [floatOkIfPresent] at h
      obtain ⟨t, ht⟩ := Option.isSome_iff_exists.mp h
      exact ⟨t, by simp only [readTemperature, hT, ht]⟩

theorem readOptInt_ok_of_wf (x : Option String)
    (h : intOkIfPresent x = true) : ∃ n, readOptInt x = .ok n := by
  cases x with
  | none => exact ⟨none, rfl⟩
  | some v =>
      simp only [intOkIfPresent] at h
      obtain ⟨n, hn⟩ := Option.isSome_iff_exists.mp h
      exact ⟨some n, by simp only [readOptInt, hn]⟩

theorem readRequestTimeout_none (env : Env)
    (h : getenv env "OLLAMA_REQUEST_TIMEOUT" = none) :
    readRequestTimeout env = .ok DEFAULT_REQUEST_TIMEOUT := by
  simp only [readRequestTimeout, h]

theorem readRequestTimeout_err (env : Env) (v : String)
    (hv : getenv env "OLLAMA_REQUEST_TIMEOUT" = some v) (hp : pyFloat v = none) :
    readRequestTimeout env = .error (.invalidNumber v) := by
  simp only [readRequestTimeout, hv, hp]

theorem init_ollama_timeout_err (env : Env) (s : SettingsState) (c : Nat)
    (v : String) (hv : getenv env "OLLAMA_REQUEST_TIMEOUT" = some v)
    (hp : pyFloat v = none) :
    init_ollama env s c = .error (.invalidNumber v, s, c) := by
  simp only [init_ollama, readRequestTimeout_err env v hv hp]

theorem init_openai_invalid_number (env : Env) (s : SettingsState) (c : Nat)
    (h : (∃ v, getenv env "LLM_TEMPERATURE" = some v ∧ pyFloat v = none) ∨
         (∃ v, getenv env "LLM_MAX_TOKENS" = some v ∧ pyInt v = none) ∨
         (∃ v, getenv env "EMBEDDING_DIM" = some v ∧ pyInt v = none)) :
    ∃ w s1, init_openai env s c = .error (.invalidNumber w, s1, c) := by
  cases htemp : readTemperature env with
  | error e =>
      obtain ⟨w, rfl⟩ := readTemperature_error_shape env e htemp
      exact ⟨w, s, by simp only [init_openai, htemp]⟩
  | ok temp =>
      cases hmt : readOptInt (getenv env "LLM_MAX_TOKENS") with
      | error e =>
          obtain ⟨w, rfl⟩ := readOptInt_error_shape _ e hmt
          exact ⟨w, s, by simp only [init_openai, htemp, hmt]⟩
      | ok mt =>
          cases hdims : readOptInt (getenv env "EMBEDDING_DIM") with
          | error e =>
              obtain ⟨w, rfl⟩ := readOptInt_error_shape _ e hdims
              refine ⟨w, { s with
                llm := some (.openai ⟨getenv env "MODEL", temp, mt⟩) }, ?_⟩
              simp only [init_openai, htemp, hmt, hdims]
          | ok dims =>
              exfalso
              rcases h with ⟨v, hv, hp⟩ | ⟨v, hv, hp⟩ | ⟨v, hv, hp⟩
              · rw [readTemperature_err env v hv hp] at htemp
                exact Except.noConfusion htemp
              · rw [hv, readOptInt_some_err v hp] at hmt
                exact Except.noConfusion hmt
              · rw [hv, readOptInt_some_err v hp] at hdims
                exact Except.noConfusion hdims

theorem init_azure_openai_invalid_number (env : Env) (s : SettingsState) (c : Nat)
    (h : (∃ v, getenv env "LLM_TEMPERATURE" = some v ∧ pyFloat v = none) ∨
         (∃ v, getenv env "LLM_MAX_TOKENS" = some v ∧ pyInt v = none) ∨
         (∃ v, getenv env "EMBEDDING_DIM" = some v ∧ pyInt v = none)) :
    ∃ w s1, init_azure_openai env s c = .error (.invalidNumber w, s1, c + 1) := by
  cases htemp : readTemperature env with
  | error e =>
      obtain ⟨w, rfl⟩ := readTemperature_error_shape env e htemp
      exact ⟨w, s, by simp only [init_azure_openai, get_bearer_token_provider, htemp]⟩
  | ok temp =>
      cases hmt : readOptInt (getenv env "LLM_MAX_TOKENS") with
      | error e =>
          obtain ⟨w, rfl⟩ := readOptInt_error_shape _ e hmt
          exact ⟨w, s, by simp only [init_azure_openai, get_bearer_token_provider, htemp, hmt]⟩
      | ok mt =>
          cases hdims : readOptInt (getenv env "EMBEDDING_DIM") with
          | error e =>
              obtain ⟨w, rfl⟩ := readOptInt_error_shape _ e hdims
              refine ⟨w, { s with
                llm := some (.azureOpenai ⟨getenv env "AZURE_DEPLOYMENT_NAME",
                  getenv env "AZURE_OPENAI_ENDPOINT", ⟨c, azure_cognitive_scope⟩,
                  true, temp, mt⟩) }, ?_⟩
              simp only [init_azure_openai, get_bearer_token_provider, htemp, hmt, hdims]
          | ok dims =>
              exfalso
              rcases h with ⟨v, hv, hp⟩ | ⟨v, hv, hp⟩ | ⟨v, hv, hp⟩
              · rw [readTemperature_err env v hv hp] at htemp
                exact Except.noConfusion htemp
              · rw [hv, readOptInt_some_err v hp] at hmt
                exact Except.noConfusion hmt
              · rw [hv, readOptInt_some_err v hp] at hdims
                exact Except.noConfusion hdims

theorem init_anthropic_model_err (env : Env) (s : SettingsState) (c : Nat)
    (h : mapLookup anthropic_model_map (getenv env "MODEL") = none) :
    init_anthropic env s c =
      .error (.unknownModelKey (getenv env "MODEL"), s, c) := by
  simp only [init_anthropic, h]

end LlamaSettings

namespace LlamaSettings

theorem readRequestTimeout_ok_of_wf (env : Env)
    (h : floatOkIfPresent (getenv env "OLLAMA_REQUEST_TIMEOUT") = true) :
    ∃ t, readRequestTimeout env = .ok t := by
  cases hT : getenv env "OLLAMA_REQUEST_TIMEOUT" with
  | none => exact ⟨DEFAULT_REQUEST_TIMEOUT, readRequestTimeout_none env hT⟩
  | some v =>
      rw [hT] at h
      simp only [floatOkIfPresent] at h
      obtain ⟨t, ht⟩ := Option.isSome_iff_exists.mp h
      exact ⟨t, by simp only [readRequestTimeout, hT, ht]⟩

theorem init_ollama_succeeds (env : Env) (s : SettingsState) (c : Nat)
    (h : floatOkIfPresent (getenv env "OLLAMA_REQUEST_TIMEOUT") = true) :
    ∃ s' c', init_ollama env s c = .ok (s', c') := by
  obtain ⟨t, ht⟩ := readRequestTimeout_ok_of_wf env h
  exact ⟨_, _, by simp only [init_ollama, ht]; rfl⟩

theorem init_openai_succeeds (env : Env) (s : SettingsState) (c : Nat)
    (h1 : floatOkIfPresent (getenv env "LLM_TEMPERATURE") = true)
    (h2 : intOkIfPresent (getenv env "LLM_MAX_TOKENS") = true)
    (h3 : intOkIfPresent (getenv env "EMBEDDING_DIM") = true) :
    ∃ s' c', init_openai env s c = .ok (s', c') := by
  obtain ⟨temp, htemp⟩ := readTemperature_ok_of_wf env h1
  obtain ⟨mt, hmt⟩ := readOptInt_ok_of_wf _ h2
  obtain ⟨dims, hdims⟩ := readOptInt_ok_of_wf _ h3
  exact ⟨_, _, by simp only [init_openai, htemp, hmt, hdims]; rfl⟩

theorem init_azure_openai_succeeds (env : Env) (s : SettingsState) (c : Nat)
    (h1 : floatOkIfPresent (getenv env "LLM_TEMPERATURE") = true)
    (h2 : intOkIfPresent (getenv env "LLM_MAX_TOKENS") = true)
    (h3 : intOkIfPresent (getenv env "EMBEDDING_DIM") = true) :
    ∃ s' c', init_azure_openai env s c = .ok (s', c') := by
  obtain ⟨temp, htemp⟩ := readTemperature_ok_of_wf env h1
  obtain ⟨mt, hmt⟩ := readOptInt_ok_of_wf _ h2
  obtain ⟨dims, hdims⟩ := readOptInt_ok_of_wf _ h3
  exact ⟨_, _, by
    simp only [init_azure_openai, get_bearer_token_provider, htemp, hmt, hdims]; rfl⟩

theorem init_anthropic_succeeds (env : Env) (s : SettingsState) (c : Nat)
    (h1 : (mapLookup anthropic_model_map (getenv env "MODEL")).isSome = true)
    (h2 : (mapLookup anthropic_embed_model_map
      (getenv env "EMBEDDING_MODEL")).isSome = true) :
    ∃ s' c', init_anthropic env s c = .ok (s', c') := by
  obtain ⟨m, hm⟩ := Option.isSome_iff_exists.mp h1
  obtain ⟨em, hem⟩ := Option.isSome_iff_exists.mp h2
  exact ⟨_, _, by simp only [init_anthropic, hm, hem]; rfl⟩

theorem init_gemini_succeeds (env : Env) (s : SettingsState) (c : Nat)
    (h1 : (mapLookup gemini_model_map (getenv env "MODEL")).isSome = true)
    (h2 : (mapLookup gemini_embed_model_map
      (getenv env "EMBEDDING_MODEL")).isSome = true) :
    ∃ s' c', init_gemini env s c = .ok (s', c') := by
  obtain ⟨m, hm⟩ := Option.isSome_iff_exists.mp h1
  obtain ⟨em, hem⟩ := Option.isSome_iff_exists.mp h2
  exact ⟨_, _, by simp only [init_gemini, hm, hem]; rfl⟩

theorem setChunkParams_succeeds (env : Env) (s : SettingsState) (c : Nat)
    (h : chunkParamsOk env = true) :
    ∃ s', setChunkParams env s c = .ok (s', c) ∧
      s'.llm = s.llm ∧ s'.embed_model = s.embed_model := by
  simp only [chunkParamsOk, Bool.and_eq_true] at h
  obtain ⟨cs, hcs⟩ := Option.isSome_iff_exists.mp h.1
  obtain ⟨co, hco⟩ := Option.isSome_iff_exists.mp h.2
  refine ⟨{ s with chunk_size := some cs, chunk_overlap := some co }, ?_, rfl, rfl⟩
  simp only [setChunkParams, hcs, hco]

theorem dispatch_ok_clients (env : Env) (s : SettingsState) (c : Nat)
    (s1 : SettingsState) (c1 : Nat)
    (h : providerDispatch env s c = .ok (s1, c1)) :
    s1.llm.isSome = true ∧ s1.embed_model.isSome = true := by
  unfold providerDispatch at h
  split at h
  · obtain ⟨_, _, _, _, _, _, hs, _⟩ := init_openai_ok_shape env s c s1 c1 h
    subst hs; exact ⟨rfl, rfl⟩
  · obtain ⟨_, _, hs, _⟩ := init_ollama_ok_shape env s c s1 c1 h
    subst hs; exact ⟨rfl, rfl⟩
  · obtain ⟨_, _, _, _, hs, _⟩ := init_anthropic_ok_shape env s c s1 c1 h
    subst hs; exact ⟨rfl, rfl⟩
  · obtain ⟨_, _, _, _, hs, _⟩ := init_gemini_ok_shape env s c s1 c1 h
    subst hs; exact ⟨rfl, rfl⟩
  · obtain ⟨_, _, _, _, _, _, hs, _⟩ := init_azure_openai_ok_shape env s c s1 c1 h
    subst hs; exact ⟨rfl, rfl⟩
  · exact absurd h (by simp)

end LlamaSettings

namespace LlamaSettings

theorem providerDispatch_state_indep (env : Env) (c : Nat)
    (s t s1 t1 : SettingsState) (c1 d1 : Nat)
    (h : providerDispatch env s c = .ok (s1, c1))
    (h' : providerDispatch env t c = .ok (t1, d1)) :
    s1.llm = t1.llm ∧ s1.embed_model = t1.embed_model ∧
    s1.chunk_size = s.chunk_size ∧ s1.chunk_overlap = s.chunk_overlap ∧
    t1.chunk_size = t.chunk_size ∧ t1.chunk_overlap = t.chunk_overlap ∧
    c1 = d1 := by
  unfold providerDispatch at h
  split at h
  · rename_i heq
    rw [providerDispatch_eq_openai env t c heq] at h'
    obtain ⟨temp, mt, dims, htemp, hmt, hdims, hs, hc⟩ :=
      init_openai_ok_shape env s c s1 c1 h
    obtain ⟨temp', mt', dims', htemp', hmt', hdims', ht', hd⟩ :=
      init_openai_ok_shape env t c t1 d1 h'
    rw [htemp] at htemp'; injection htemp' with e1
    rw [hmt] at hmt'; injection hmt' with e2
    rw [hdims] at hdims'; injection hdims' with e3
    subst e1; subst e2; subst e3
    subst hs; subst ht'; subst hc; subst hd
    exact ⟨rfl, rfl, rfl, rfl, rfl, rfl, rfl⟩
  · rename_i heq
    rw [providerDispatch_eq_ollama env t c heq] at h'
    obtain ⟨tm, htm, hs, hc⟩ := init_ollama_ok_shape env s c s1 c1 h
    obtain ⟨tm', htm', ht', hd⟩ := init_ollama_ok_shape env t c t1 d1 h'
    rw [htm] at htm'; injection htm' with e1
    subst e1
    subst hs; subst ht'; subst hc; subst hd
    exact ⟨rfl, rfl, rfl, rfl, rfl, rfl, rfl⟩
  · rename_i heq
    rw [providerDispatch_eq_anthropic env t c heq] at h'
    obtain ⟨m, em, hm, hem, hs, hc⟩ := init_anthropic_ok_shape env s c s1 c1 h
    obtain ⟨m', em', hm', hem', ht', hd⟩ := init_anthropic_ok_shape env t c t1 d1 h'
    rw [hm] at hm'; injection hm' with e1
    rw [hem] at hem'; injection hem' with e2
    subst e1; subst e2
    subst hs; subst ht'; subst hc; subst hd
    exact ⟨rfl, rfl, rfl, rfl, rfl, rfl, rfl⟩
  · rename_i heq
    rw [providerDispatch_eq_gemini env t c heq] at h'
    obtain ⟨m, em, hm, hem, hs, hc⟩ := init_gemini_ok_shape env s c s1 c1 h
    obtain ⟨m', em', hm', hem', ht', hd⟩ := init_gemini_ok_shape env t c t1 d1 h'
    rw [hm] at hm'; injection hm' with e1
    rw [hem] at hem'; injection hem' with e2
    subst e1; subst e2
    subst hs; subst ht'; subst hc; subst hd
    exact ⟨rfl, rfl, rfl, rfl, rfl, rfl, rfl⟩
  · rename_i heq
    rw [providerDispatch_eq_azure env t c heq] at h'
    obtain ⟨temp, mt, dims, htemp, hmt, hdims, hs, hc⟩ :=
      init_azure_openai_ok_shape env s c s1 c1 h
    obtain ⟨temp', mt', dims', htemp', hmt', hdims', ht', hd⟩ :=
      init_azure_openai_ok_shape env t c t1 d1 h'
    rw [htemp] at htemp'; injection htemp' with e1
    rw [hmt] at hmt'; injection hmt' with e2
    rw [hdims] at hdims'; injection hdims' with e3
    subst e1; subst e2; subst e3
    subst hs; subst ht'; subst hc; subst hd
    exact ⟨rfl, rfl, rfl, rfl, rfl, rfl, rfl⟩
  · exact absurd h (by simp)

end LlamaSettings

/-!
Claim theorems.
-/

namespace LlamaSettings

/-- **C1**: `init_settings` reads `MODEL_PROVIDER`; whenever the value is
unset or not one of the five enumerated tags, initialization fails with the
configuration error naming the offending value (settings untouched), and for
each of the five tags the dispatch step runs exactly the matching
per-provider initializer. -/
theorem init_settings_provider_selection (env : Env) (s : SettingsState) (c : Nat) :
    (getenv env "MODEL_PROVIDER" ∉ validProviderTags →
      init_settings env s c =
        .error (.invalidProvider (getenv env "MODEL_PROVIDER"), s, c)) ∧
    (getenv env "MODEL_PROVIDER" = some "openai" →
      providerDispatch env s c = init_openai env s c) ∧
    (getenv env "MODEL_PROVIDER" = some "ollama" →
      providerDispatch env s c = init_ollama env s c) ∧
    (getenv env "MODEL_PROVIDER" = some "anthropic" →
      providerDispatch env s c = init_anthropic env s c) ∧
    (getenv env "MODEL_PROVIDER" = some "gemini" →
      providerDispatch env s c = init_gemini env s c) ∧
    (getenv env "MODEL_PROVIDER" = some "azure-openai" →
      providerDispatch env s c = init_azure_openai env s c) :=
  ⟨fun h => init_settings_of_dispatch_error env s c _ (providerDispatch_invalid env s c h),
   providerDispatch_eq_openai env s c,
   providerDispatch_eq_ollama env s c,
   providerDispatch_eq_anthropic env s c,
   providerDispatch_eq_gemini env s c,
   providerDispatch_eq_azure env s c⟩

theorem init_settings_provider_selection_witness :
    init_settings [("MODEL_PROVIDER", "cohere")] SettingsState.initial 0 =
      .error (.invalidProvider (some "cohere"), SettingsState.initial, 0) ∧
    providerDispatch [("MODEL_PROVIDER", "ollama")] SettingsState.initial 0 =
      init_ollama [("MODEL_PROVIDER", "ollama")] SettingsState.initial 0 :=
  ⟨(init_settings_provider_selection [("MODEL_PROVIDER", "cohere")]
      SettingsState.initial 0).1 (by decide),
   (init_settings_provider_selection [("MODEL_PROVIDER", "ollama")]
      SettingsState.initial 0).2.2.1 (by decide)⟩

end LlamaSettings

namespace LlamaSettings

/-- **C2**: after a successful provider step, `init_settings` sets the global
chunk parameters parsed from the environment as integers: `CHUNK_SIZE` unset
gives chunk size 1024 (and `CHUNK_OVERLAP` unset gives overlap 20);
`CHUNK_SIZE="512"` gives 512; a present but non-numeric `CHUNK_SIZE` makes
initialization fail with the configuration error for that value. -/
theorem init_settings_chunk_params (env : Env) (s : SettingsState) (c : Nat) :
    (∀ s' c', init_settings env s c = .ok (s', c') →
      (getenv env "CHUNK_SIZE" = none → s'.chunk_size = some 1024) ∧
      (getenv env "CHUNK_SIZE" = some "512" → s'.chunk_size = some 512) ∧
      (getenv env "CHUNK_OVERLAP" = none → s'.chunk_overlap = some 20)) ∧
    (∀ s1 c1, providerDispatch env s c = .ok (s1, c1) →
      ∀ v, getenv env "CHUNK_SIZE" = some v → pyInt v = none →
        init_settings env s c = .error (.invalidNumber v, s1, c1)) := by
  constructor
  · intro s' c' h
    obtain ⟨s1, c1, hd, hch⟩ := init_settings_ok_inv env s c s' c' h
    obtain ⟨cs, co, hcs, hco, hs', _⟩ := setChunkParams_ok_shape env s1 c1 s' c' hch
    subst hs'
    refine ⟨?_, ?_, ?_⟩
    · intro hn
      rw [hn] at hcs
      have e : pyInt (Option.getD none "1024") = some 1024 := by decide
      rw [e] at hcs
      injection hcs with e2
      rw [← e2]
    · intro hv
      rw [hv] at hcs
      have e : pyInt (Option.getD (some "512") "1024") = some 512 := by decide
      rw [e] at hcs
      injection hcs with e2
      rw [← e2]
    · intro hn
      rw [hn] at hco
      have e : pyInt (Option.getD none "20") = some 20 := by decide
      rw [e] at hco
      injection hco with e2
      rw [← e2]
  · intro s1 c1 hd v hv hp
    rw [init_settings_of_dispatch_ok env s c s1 c1 hd]
    simp only [setChunkParams, hv, Option.getD_some, hp]

end LlamaSettings

namespace LlamaSettings

theorem init_settings_chunk_params_witness :
    ({ llm := some (.ollama ⟨"http://127.0.0.1:11434", none, DEFAULT_REQUEST_TIMEOUT⟩),
       embed_model := some (.ollama ⟨"http://127.0.0.1:11434", none⟩),
       chunk_size := some 512, chunk_overlap := some 20 } : SettingsState).chunk_size =
      some 512 ∧
    init_settings [("MODEL_PROVIDER", "ollama"), ("CHUNK_SIZE", "abc")]
        SettingsState.initial 0 =
      .error (.invalidNumber "abc",
        { llm := some (.ollama ⟨"http://127.0.0.1:11434", none, DEFAULT_REQUEST_TIMEOUT⟩),
          embed_model := some (.ollama ⟨"http://127.0.0.1:11434", none⟩),
          chunk_size := none, chunk_overlap := none }, 0) :=
  ⟨((init_settings_chunk_params [("MODEL_PROVIDER", "ollama"), ("CHUNK_SIZE", "512")]
      SettingsState.initial 0).1
      { llm := some (.ollama ⟨"http://127.0.0.1:11434", none, DEFAULT_REQUEST_TIMEOUT⟩),
        embed_model := some (.ollama ⟨"http://127.0.0.1:11434", none⟩),
        chunk_size := some 512, chunk_overlap := some 20 } 0 (by rfl)).2.1 (by rfl),
   (init_settings_chunk_params [("MODEL_PROVIDER", "ollama"), ("CHUNK_SIZE", "abc")]
      SettingsState.initial 0).2
      { llm := some (.ollama ⟨"http://127.0.0.1:11434", none, DEFAULT_REQUEST_TIMEOUT⟩),
        embed_model := some (.ollama ⟨"http://127.0.0.1:11434", none⟩),
        chunk_size := none, chunk_overlap := none } 0 (by rfl) "abc" (by rfl) (by rfl)⟩

end LlamaSettings

namespace LlamaSettings

/-- **C3**: for the anthropic provider, the generation model is resolved
through the fixed five-entry `model_map` and the embedding model through the
fixed two-entry `embed_model_map`; `MODEL="claude-3-haiku"` resolves to
`"claude-3-haiku-20240307"`, and any `MODEL` absent from the map (such as
`"gpt-5"`) makes initialization fail with the fatal lookup error. -/
theorem init_anthropic_model_resolution (env : Env) (s : SettingsState) (c : Nat) :
    anthropic_model_map.length = 5 ∧
    anthropic_embed_model_map.length = 2 ∧
    (∀ s' c', init_anthropic env s c = .ok (s', c') →
      s'.llm = (mapLookup anthropic_model_map (getenv env "MODEL")).map
        (fun m => .anthropic ⟨m⟩) ∧
      s'.embed_model = (mapLookup anthropic_embed_model_map
        (getenv env "EMBEDDING_MODEL")).map (fun em => .huggingface ⟨em⟩)) ∧
    (getenv env "MODEL" = some "claude-3-haiku" →
      mapLookup anthropic_model_map (getenv env "MODEL") =
        some "claude-3-haiku-20240307") ∧
    (mapLookup anthropic_model_map (getenv env "MODEL") = none →
      init_anthropic env s c =
        .error (.unknownModelKey (getenv env "MODEL"), s, c)) ∧
    (getenv env "MODEL" = some "gpt-5" →
      init_anthropic env s c = .error (.unknownModelKey (some "gpt-5"), s, c)) := by
  refine ⟨rfl, rfl, ?_, ?_, init_anthropic_model_err env s c, ?_⟩
  · intro s' c' h
    obtain ⟨m, em, hm, hem, hs', _⟩ := init_anthropic_ok_shape env s c s' c' h
    subst hs'
    rw [hm, hem]
    exact ⟨rfl, rfl⟩
  · intro h
    rw [h]
    decide
  · intro h
    have h2 : mapLookup anthropic_model_map (getenv env "MODEL") = none := by
      rw [h]; decide
    have h3 := init_anthropic_model_err env s c h2
    rw [h] at h3
    exact h3

theorem init_anthropic_model_resolution_witness :
    ({ llm := some (.anthropic ⟨"claude-3-haiku-20240307"⟩),
       embed_model := some (.huggingface ⟨"sentence-transformers/all-MiniLM-L6-v2"⟩),
       chunk_size := none, chunk_overlap := none } : SettingsState).llm =
      (mapLookup anthropic_model_map
        (getenv [("MODEL", "claude-3-haiku"), ("EMBEDDING_MODEL", "all-MiniLM-L6-v2")]
          "MODEL")).map (fun m => .anthropic ⟨m⟩) ∧
    init_anthropic [("MODEL", "gpt-5")] SettingsState.initial 0 =
      .error (.unknownModelKey (some "gpt-5"), SettingsState.initial, 0) :=
  ⟨((init_anthropic_model_resolution
      [("MODEL", "claude-3-haiku"), ("EMBEDDING_MODEL", "all-MiniLM-L6-v2")]
      SettingsState.initial 0).2.2.1
      { llm := some (.anthropic ⟨"claude-3-haiku-20240307"⟩),
        embed_model := some (.huggingface ⟨"sentence-transformers/all-MiniLM-L6-v2"⟩),
        chunk_size := none, chunk_overlap := none } 0 (by rfl)).1,
   (init_anthropic_model_resolution [("MODEL", "gpt-5")]
      SettingsState.initial 0).2.2.2.2.2 (by rfl)⟩

end LlamaSettings

namespace LlamaSettings

/-- **C4**: optional numeric fields (`LLM_MAX_TOKENS`, `EMBEDDING_DIM`,
`LLM_TEMPERATURE`) are parsed only when present; absence propagates so the
provider default applies (`none` for max tokens and dimensions,
`DEFAULT_TEMPERATURE` — the client constructor's own default — for
temperature), while presence with an unparsable value fails with a
configuration error.  In particular, for openai with `EMBEDDING_DIM` unset
the embedding client carries no fixed dimension, and with
`EMBEDDING_DIM="1536"` it carries dimension 1536; the same policy is proved
for the azure-openai initializer, the only other initializer reading these
keys. -/
theorem optional_numeric_fields_policy (env : Env) (s : SettingsState) (c : Nat) :
    (∀ s' c', init_openai env s c = .ok (s', c') →
      (getenv env "EMBEDDING_DIM" = none →
        s'.embed_model = some (.openai ⟨getenv env "EMBEDDING_MODEL", none⟩)) ∧
      (getenv env "EMBEDDING_DIM" = some "1536" →
        s'.embed_model = some (.openai ⟨getenv env "EMBEDDING_MODEL", some 1536⟩)) ∧
      (getenv env "LLM_MAX_TOKENS" = none →
        ∃ temp, s'.llm = some (.openai ⟨getenv env "MODEL", temp, none⟩)) ∧
      (getenv env "LLM_TEMPERATURE" = none →
        ∃ mt, s'.llm = some (.openai ⟨getenv env "MODEL", DEFAULT_TEMPERATURE, mt⟩))) ∧
    (((∃ v, getenv env "LLM_TEMPERATURE" = some v ∧ pyFloat v = none) ∨
      (∃ v, getenv env "LLM_MAX_TOKENS" = some v ∧ pyInt v = none) ∨
      (∃ v, getenv env "EMBEDDING_DIM" = some v ∧ pyInt v = none)) →
      ∃ w s1, init_openai env s c = .error (.invalidNumber w, s1, c)) ∧
    (∀ s' c', init_azure_openai env s c = .ok (s', c') →
      (getenv env "EMBEDDING_DIM" = none →
        ∃ emb, s'.embed_model = some (.azureOpenai emb) ∧ emb.dimensions = none) ∧
      (getenv env "LLM_MAX_TOKENS" = none →
        ∃ lc, s'.llm = some (.azureOpenai lc) ∧ lc.max_tokens = none)) ∧
    (((∃ v, getenv env "LLM_TEMPERATURE" = some v ∧ pyFloat v = none) ∨
      (∃ v, getenv env "LLM_MAX_TOKENS" = some v ∧ pyInt v = none) ∨
      (∃ v, getenv env "EMBEDDING_DIM" = some v ∧ pyInt v = none)) →
      ∃ w s1, init_azure_openai env s c = .error (.invalidNumber w, s1, c + 1)) := by
  refine ⟨?_, init_openai_invalid_number env s c, ?_,
    init_azure_openai_invalid_number env s c⟩
  · intro s' c' h
    obtain ⟨temp, mt, dims, htemp, hmt, hdims, hs', _⟩ :=
      init_openai_ok_shape env s c s' c' h
    subst hs'
    refine ⟨?_, ?_, ?_, ?_⟩
    · intro hn
      rw [hn, readOptInt_none] at hdims
      injection hdims with e
      rw [← e]
    · intro hv
      rw [hv] at hdims
      have e : readOptInt (some "1536") = .ok (some 1536) := rfl
      rw [e] at hdims
      injection hdims with e2
      rw [← e2]
    · intro hn
      rw [hn, readOptInt_none] at hmt
      injection hmt with e
      rw [← e]
      exact ⟨temp, rfl⟩
    · intro hn
      rw [readTemperature_none env hn] at htemp
      injection htemp with e
      rw [← e]
      exact ⟨mt, rfl⟩
  · intro s' c' h
    obtain ⟨temp, mt, dims, htemp, hmt, hdims, hs', _⟩ :=
      init_azure_openai_ok_shape env s c s' c' h
    subst hs'
    constructor
    · intro hn
      rw [hn, readOptInt_none] at hdims
      injection hdims with e
      rw [← e]
      exact ⟨_, rfl, rfl⟩
    · intro hn
      rw [hn, readOptInt_none] at hmt
      injection hmt with e
      rw [← e]
      exact ⟨_, rfl, rfl⟩

end LlamaSettings

namespace LlamaSettings

theorem optional_numeric_fields_policy_witness :
    ({ llm := some (.openai ⟨none, DEFAULT_TEMPERATURE, none⟩),
       embed_model := some (.openai ⟨none, none⟩),
       chunk_size := none, chunk_overlap := none } : SettingsState).embed_model =
      some (.openai ⟨getenv ([] : Env) "EMBEDDING_MODEL", none⟩) ∧
    ({ llm := some (.openai ⟨none, DEFAULT_TEMPERATURE, none⟩),
       embed_model := some (.openai ⟨none, some 1536⟩),
       chunk_size := none, chunk_overlap := none } : SettingsState).embed_model =
      some (.openai ⟨getenv [("EMBEDDING_DIM", "1536")] "EMBEDDING_MODEL", some 1536⟩) ∧
    ∃ w s1, init_openai [("LLM_MAX_TOKENS", "abc")] SettingsState.initial 0 =
      .error (.invalidNumber w, s1, 0) :=
  ⟨((optional_numeric_fields_policy ([] : Env) SettingsState.initial 0).1
      { llm := some (.openai ⟨none, DEFAULT_TEMPERATURE, none⟩),
        embed_model := some (.openai ⟨none, none⟩),
        chunk_size := none, chunk_overlap := none } 0 (by rfl)).1 (by rfl),
   ((optional_numeric_fields_policy [("EMBEDDING_DIM", "1536")] SettingsState.initial 0).1
      { llm := some (.openai ⟨none, DEFAULT_TEMPERATURE, none⟩),
        embed_model := some (.openai ⟨none, some 1536⟩),
        chunk_size := none, chunk_overlap := none } 0 (by rfl)).2.1 (by rfl),
   (optional_numeric_fields_policy [("LLM_MAX_TOKENS", "abc")] SettingsState.initial 0).2.1
      (Or.inr (Or.inl ⟨"abc", rfl, by rfl⟩))⟩

end LlamaSettings

namespace LlamaSettings

/-- **C5** (counterexample): `"anthropic"` is one of the five valid provider
tags, yet with `MODEL_PROVIDER=anthropic` and nothing else set,
initialization fails (the `model_map` lookup on the unset `MODEL` raises), so
a valid selector alone does not guarantee success. -/
theorem valid_tag_no_success_counterexample :
    (some "anthropic") ∈ validProviderTags ∧
    init_settings [("MODEL_PROVIDER", "anthropic")] SettingsState.initial 0 =
      .error (.unknownModelKey none, SettingsState.initial, 0) :=
  ⟨by decide, by rfl⟩

/-- **C5** (amended): for all five valid values of the provider selector,
initialization succeeds and yields a non-null generation-client handle and a
non-null embedding-client handle, provided the provider-specific environment
entries are well formed (present numeric values parse; anthropic / gemini
model names hit their maps; chunk parameters parse). -/
theorem init_settings_valid_tag_success (env : Env) (s : SettingsState) (c : Nat)
    (p : String) (hp : getenv env "MODEL_PROVIDER" = some p)
    (hmem : p ∈ ["openai", "ollama", "anthropic", "gemini", "azure-openai"])
    (hwf : envWellFormedFor p env = true)
    (hchunk : chunkParamsOk env = true) :
    ∃ s' c', init_settings env s c = .ok (s', c') ∧
      s'.llm.isSome = true ∧ s'.embed_model.isSome = true := by
  have main : ∃ s1 c1, providerDispatch env s c = .ok (s1, c1) := by
    simp only [List.mem_cons, List.not_mem_nil, or_false] at hmem
    rcases hmem with rfl | rfl | rfl | rfl | rfl
    · have hw : (floatOkIfPresent (getenv env "LLM_TEMPERATURE") &&
          intOkIfPresent (getenv env "LLM_MAX_TOKENS") &&
          intOkIfPresent (getenv env "EMBEDDING_DIM")) = true := hwf
      simp only [Bool.and_eq_true] at hw
      obtain ⟨s1, c1, h⟩ := init_openai_succeeds env s c hw.1.1 hw.1.2 hw.2
      exact ⟨s1, c1, by rw [providerDispatch_eq_openai env s c hp]; exact h⟩
    · have hw : floatOkIfPresent (getenv env "OLLAMA_REQUEST_TIMEOUT") = true := hwf
      obtain ⟨s1, c1, h⟩ := init_ollama_succeeds env s c hw
      exact ⟨s1, c1, by rw [providerDispatch_eq_ollama env s c hp]; exact h⟩
    · have hw : ((mapLookup anthropic_model_map (getenv env "MODEL")).isSome &&
          (mapLookup anthropic_embed_model_map
            (getenv env "EMBEDDING_MODEL")).isSome) = true := hwf
      simp only [Bool.and_eq_true] at hw
      obtain ⟨s1, c1, h⟩ := init_anthropic_succeeds env s c hw.1 hw.2
      exact ⟨s1, c1, by rw [providerDispatch_eq_anthropic env s c hp]; exact h⟩
    · have hw : ((mapLookup gemini_model_map (getenv env "MODEL")).isSome &&
          (mapLookup gemini_embed_model_map
            (getenv env "EMBEDDING_MODEL")).isSome) = true := hwf
      simp only [Bool.and_eq_true] at hw
      obtain ⟨s1, c1, h⟩ := init_gemini_succeeds env s c hw.1 hw.2
      exact ⟨s1, c1, by rw [providerDispatch_eq_gemini env s c hp]; exact h⟩
    · have hw : (floatOkIfPresent (getenv env "LLM_TEMPERATURE") &&
          intOkIfPresent (getenv env "LLM_MAX_TOKENS") &&
          intOkIfPresent (getenv env "EMBEDDING_DIM")) = true := hwf
      simp only [Bool.and_eq_true] at hw
      obtain ⟨s1, c1, h⟩ := init_azure_openai_succeeds env s c hw.1.1 hw.1.2 hw.2
      exact ⟨s1, c1, by rw [providerDispatch_eq_azure env s c hp]; exact h⟩
  obtain ⟨s1, c1, hd⟩ := main
  obtain ⟨hllm, hemb⟩ := dispatch_ok_clients env s c s1 c1 hd
  obtain ⟨s2, hch, hl2, he2⟩ := setChunkParams_succeeds env s1 c1 hchunk
  refine ⟨s2, c1, ?_, ?_, ?_⟩
  · rw [init_settings_of_dispatch_ok env s c s1 c1 hd]
    exact hch
  · rw [hl2]; exact hllm
  · rw [he2]; exact hemb

theorem init_settings_valid_tag_success_witness :
    ∃ s' c',
      init_settings [("MODEL_PROVIDER", "gemini"), ("MODEL", "gemini-pro"),
          ("EMBEDDING_MODEL", "embedding-001")] SettingsState.initial 0 =
        .ok (s', c') ∧
      s'.llm.isSome = true ∧ s'.embed_model.isSome = true :=
  init_settings_valid_tag_success
    [("MODEL_PROVIDER", "gemini"), ("MODEL", "gemini-pro"),
      ("EMBEDDING_MODEL", "embedding-001")] SettingsState.initial 0 "gemini"
    (by rfl) (by decide) (by rfl) (by rfl)

end LlamaSettings

namespace LlamaSettings

/-- **C6**: the result of a successful `init_settings` call does not depend
on the shared settings it starts from — every success overwrites the
generation client, the embedding client, the chunk size and the chunk
overlap.  In particular, calling the configurator twice (with possibly
different providers) leaves exactly the settings the second call would have
produced from untouched state: last write wins, nothing from the first call
is merged in. -/
theorem init_settings_last_write_wins (env : Env) (c : Nat)
    (s t : SettingsState) (r r' : SettingsState × Nat)
    (h : init_settings env s c = .ok r) (h' : init_settings env t c = .ok r') :
    r = r' := by
  obtain ⟨r1, r2⟩ := r
  obtain ⟨r1', r2'⟩ := r'
  obtain ⟨s1, c1, hd, hch⟩ := init_settings_ok_inv env s c r1 r2 h
  obtain ⟨t1, d1, hd', hch'⟩ := init_settings_ok_inv env t c r1' r2' h'
  obtain ⟨hllm, hemb, _, _, _, _, hcc⟩ :=
    providerDispatch_state_indep env c s t s1 t1 c1 d1 hd hd'
  subst hcc
  obtain ⟨cs, co, hcs, hco, hr, hrc⟩ := setChunkParams_ok_shape env s1 c1 r1 r2 hch
  obtain ⟨cs', co', hcs', hco', hr', hrc'⟩ :=
    setChunkParams_ok_shape env t1 c1 r1' r2' hch'
  rw [hcs] at hcs'; injection hcs' with e1; subst e1
  rw [hco] at hco'; injection hco' with e2; subst e2
  subst hr; subst hr'; subst hrc; subst hrc'
  rw [Prod.mk.injEq]
  refine ⟨?_, rfl⟩
  show SettingsState.mk s1.llm s1.embed_model (some cs) (some co) =
    SettingsState.mk t1.llm t1.embed_model (some cs) (some co)
  rw [hllm, hemb]

theorem init_settings_last_write_wins_witness :
    (({ llm := some (.gemini ⟨"models/gemini-pro"⟩),
        embed_model := some (.gemini ⟨"models/embedding-001"⟩),
        chunk_size := some 1024, chunk_overlap := some 20 } : SettingsState), 0) =
    (({ llm := some (.gemini ⟨"models/gemini-pro"⟩),
        embed_model := some (.gemini ⟨"models/embedding-001"⟩),
        chunk_size := some 1024, chunk_overlap := some 20 } : SettingsState), 0) :=
  init_settings_last_write_wins
    [("MODEL_PROVIDER", "gemini"), ("MODEL", "gemini-pro"),
      ("EMBEDDING_MODEL", "embedding-001")] 0
    { llm := some (.ollama ⟨"http://127.0.0.1:11434", none, DEFAULT_REQUEST_TIMEOUT⟩),
      embed_model := some (.ollama ⟨"http://127.0.0.1:11434", none⟩),
      chunk_size := some 512, chunk_overlap := some 7 }
    SettingsState.initial
    ({ llm := some (.gemini ⟨"models/gemini-pro"⟩),
       embed_model := some (.gemini ⟨"models/embedding-001"⟩),
       chunk_size := some 1024, chunk_overlap := some 20 }, 0)
    ({ llm := some (.gemini ⟨"models/gemini-pro"⟩),
       embed_model := some (.gemini ⟨"models/embedding-001"⟩),
       chunk_size := some 1024, chunk_overlap := some 20 }, 0)
    (by rfl) (by rfl)

end LlamaSettings

namespace LlamaSettings

/-- **C7**: for the ollama provider, the base URL defaults to
`http://127.0.0.1:11434` when `OLLAMA_BASE_URL` is absent, the very same
base URL value is passed to both the generation client and the embedding
client, and the request timeout is parsed as a number from
`OLLAMA_REQUEST_TIMEOUT` with the provider default `DEFAULT_REQUEST_TIMEOUT`
when absent (an unparsable value raises). -/
theorem init_ollama_base_url_and_timeout (env : Env) (s : SettingsState) (c : Nat) :
    (getenv env "OLLAMA_BASE_URL" = none →
      ollama_base_url env = "http://127.0.0.1:11434") ∧
    (∀ s' c', init_ollama env s c = .ok (s', c') →
      ∃ t, readRequestTimeout env = .ok t ∧
        s'.llm = some (.ollama ⟨ollama_base_url env, getenv env "MODEL", t⟩) ∧
        s'.embed_model =
          some (.ollama ⟨ollama_base_url env, getenv env "EMBEDDING_MODEL"⟩)) ∧
    (getenv env "OLLAMA_REQUEST_TIMEOUT" = none →
      readRequestTimeout env = .ok DEFAULT_REQUEST_TIMEOUT) ∧
    (∀ v t, getenv env "OLLAMA_REQUEST_TIMEOUT" = some v → pyFloat v = some t →
      readRequestTimeout env = .ok t) ∧
    (∀ v, getenv env "OLLAMA_REQUEST_TIMEOUT" = some v → pyFloat v = none →
      init_ollama env s c = .error (.invalidNumber v, s, c)) := by
  refine ⟨?_, ?_, readRequestTimeout_none env, ?_, init_ollama_timeout_err env s c⟩
  · intro h
    simp only [ollama_base_url, h]
  · intro s' c' h
    obtain ⟨t, ht, hs', _⟩ := init_ollama_ok_shape env s c s' c' h
    subst hs'
    exact ⟨t, ht, rfl, rfl⟩
  · intro v t hv hp
    simp only [readRequestTimeout, hv, hp]

theorem init_ollama_base_url_and_timeout_witness :
    ollama_base_url [("MODEL_PROVIDER", "ollama")] = "http://127.0.0.1:11434" ∧
    (∃ t, readRequestTimeout [("MODEL_PROVIDER", "ollama")] = .ok t ∧
      ({ llm := some (.ollama ⟨"http://127.0.0.1:11434", none, DEFAULT_REQUEST_TIMEOUT⟩),
         embed_model := some (.ollama ⟨"http://127.0.0.1:11434", none⟩),
         chunk_size := none, chunk_overlap := none } : SettingsState).llm =
        some (.ollama ⟨ollama_base_url [("MODEL_PROVIDER", "ollama")],
          getenv [("MODEL_PROVIDER", "ollama")] "MODEL", t⟩) ∧
      ({ llm := some (.ollama ⟨"http://127.0.0.1:11434", none, DEFAULT_REQUEST_TIMEOUT⟩),
         embed_model := some (.ollama ⟨"http://127.0.0.1:11434", none⟩),
         chunk_size := none, chunk_overlap := none } : SettingsState).embed_model =
        some (.ollama ⟨ollama_base_url [("MODEL_PROVIDER", "ollama")],
          getenv [("MODEL_PROVIDER", "ollama")] "EMBEDDING_MODEL"⟩)) ∧
    init_ollama [("OLLAMA_REQUEST_TIMEOUT", "fast")] SettingsState.initial 0 =
      .error (.invalidNumber "fast", SettingsState.initial, 0) :=
  ⟨(init_ollama_base_url_and_timeout [("MODEL_PROVIDER", "ollama")]
      SettingsState.initial 0).1 (by rfl),
   (init_ollama_base_url_and_timeout [("MODEL_PROVIDER", "ollama")]
      SettingsState.initial 0).2.1
      { llm := some (.ollama ⟨"http://127.0.0.1:11434", none, DEFAULT_REQUEST_TIMEOUT⟩),
        embed_model := some (.ollama ⟨"http://127.0.0.1:11434", none⟩),
        chunk_size := none, chunk_overlap := none } 0 (by rfl),
   (init_ollama_base_url_and_timeout [("OLLAMA_REQUEST_TIMEOUT", "fast")]
      SettingsState.initial 0).2.2.2.2 "fast" (by rfl) (by rfl)⟩

/-- **C8**: the azure-openai initializer obtains exactly one
bearer-token-provider callback (the issue counter advances by one and the
callback is the one issued at the old counter, scoped to the fixed
cognitive-services audience) and passes that same callback to both the
generation client and the embedding client, together with the deployment
name, endpoint, temperature, max tokens and embedding dimension read from
the environment. -/
theorem init_azure_openai_single_token_provider (env : Env) (s : SettingsState)
    (c : Nat) (s' : SettingsState) (c' : Nat)
    (h : init_azure_openai env s c = .ok (s', c')) :
    c' = c + 1 ∧
    ∃ temp mt dims,
      readTemperature env = .ok temp ∧
      readOptInt (getenv env "LLM_MAX_TOKENS") = .ok mt ∧
      readOptInt (getenv env "EMBEDDING_DIM") = .ok dims ∧
      s'.llm = some (.azureOpenai ⟨getenv env "AZURE_DEPLOYMENT_NAME",
        getenv env "AZURE_OPENAI_ENDPOINT", ⟨c, azure_cognitive_scope⟩,
        true, temp, mt⟩) ∧
      s'.embed_model = some (.azureOpenai ⟨getenv env "AZURE_OPENAI_ENDPOINT",
        getenv env "EMBEDDING_MODEL", ⟨c, azure_cognitive_scope⟩, true, dims⟩) := by
  obtain ⟨temp, mt, dims, htemp, hmt, hdims, hs', hc'⟩ :=
    init_azure_openai_ok_shape env s c s' c' h
  subst hs'
  exact ⟨hc', temp, mt, dims, htemp, hmt, hdims, rfl, rfl⟩

theorem init_azure_openai_single_token_provider_witness :
    0 + 1 = 0 + 1 ∧
    ∃ temp mt dims,
      readTemperature [("AZURE_DEPLOYMENT_NAME", "gpt4"),
        ("AZURE_OPENAI_ENDPOINT", "https://example.azure.com")] = .ok temp ∧
      readOptInt (getenv [("AZURE_DEPLOYMENT_NAME", "gpt4"),
        ("AZURE_OPENAI_ENDPOINT", "https://example.azure.com")] "LLM_MAX_TOKENS") =
        .ok mt ∧
      readOptInt (getenv [("AZURE_DEPLOYMENT_NAME", "gpt4"),
        ("AZURE_OPENAI_ENDPOINT", "https://example.azure.com")] "EMBEDDING_DIM") =
        .ok dims ∧
      ({ llm := some (.azureOpenai ⟨some "gpt4", some "https://example.azure.com",
           ⟨0, azure_cognitive_scope⟩, true, DEFAULT_TEMPERATURE, none⟩),
         embed_model := some (.azureOpenai ⟨some "https://example.azure.com", none,
           ⟨0, azure_cognitive_scope⟩, true, none⟩),
         chunk_size := none, chunk_overlap := none } : SettingsState).llm =
        some (.azureOpenai ⟨getenv [("AZURE_DEPLOYMENT_NAME", "gpt4"),
          ("AZURE_OPENAI_ENDPOINT", "https://example.azure.com")] "AZURE_DEPLOYMENT_NAME",
          getenv [("AZURE_DEPLOYMENT_NAME", "gpt4"),
            ("AZURE_OPENAI_ENDPOINT", "https://example.azure.com")] "AZURE_OPENAI_ENDPOINT",
          ⟨0, azure_cognitive_scope⟩, true, temp, mt⟩) ∧
      ({ llm := some (.azureOpenai ⟨some "gpt4", some "https://example.azure.com",
           ⟨0, azure_cognitive_scope⟩, true, DEFAULT_TEMPERATURE, none⟩),
         embed_model := some (.azureOpenai ⟨some "https://example.azure.com", none,
           ⟨0, azure_cognitive_scope⟩, true, none⟩),
         chunk_size := none, chunk_overlap := none } : SettingsState).embed_model =
        some (.azureOpenai ⟨getenv [("AZURE_DEPLOYMENT_NAME", "gpt4"),
          ("AZURE_OPENAI_ENDPOINT", "https://example.azure.com")] "AZURE_OPENAI_ENDPOINT",
          getenv [("AZURE_DEPLOYMENT_NAME", "gpt4"),
            ("AZURE_OPENAI_ENDPOINT", "https://example.azure.com")] "EMBEDDING_MODEL",
          ⟨0, azure_cognitive_scope⟩, true, dims⟩) :=
  init_azure_openai_single_token_provider
    [("AZURE_DEPLOYMENT_NAME", "gpt4"),
      ("AZURE_OPENAI_ENDPOINT", "https://example.azure.com")]
    SettingsState.initial 0
    { llm := some (.azureOpenai ⟨some "gpt4", some "https://example.azure.com",
        ⟨0, azure_cognitive_scope⟩, true, DEFAULT_TEMPERATURE, none⟩),
      embed_model := some (.azureOpenai ⟨some "https://example.azure.com", none,
        ⟨0, azure_cognitive_scope⟩, true, none⟩),
      chunk_size := none, chunk_overlap := none }
    (0 + 1) (by rfl)

end LlamaSettings

namespace LlamaSettings

/-- **C9**: `AZURE_CONTAINER_REGISTRY_ENDPOINT` has no effect on the
resulting configuration: two environments that agree on every other
variable produce identical results of `init_settings` (the variable is read
only for diagnostic printing, which touches no settings). -/
theorem registry_endpoint_has_no_effect (env env' : Env) (s : SettingsState)
    (c : Nat)
    (h : ∀ k, k ≠ "AZURE_CONTAINER_REGISTRY_ENDPOINT" →
      getenv env k = getenv env' k) :
    init_settings env s c = init_settings env' s c := by
  have h1 := h "MODEL_PROVIDER" (by decide)
  have h2 := h "OLLAMA_BASE_URL" (by decide)
  have h3 := h "OLLAMA_REQUEST_TIMEOUT" (by decide)
  have h4 := h "EMBEDDING_MODEL" (by decide)
  have h5 := h "MODEL" (by decide)
  have h6 := h "LLM_TEMPERATURE" (by decide)
  have h7 := h "LLM_MAX_TOKENS" (by decide)
  have h8 := h "EMBEDDING_DIM" (by decide)
  have h9 := h "AZURE_DEPLOYMENT_NAME" (by decide)
  have h10 := h "AZURE_OPENAI_ENDPOINT" (by decide)
  have h11 := h "CHUNK_SIZE" (by decide)
  have h12 := h "CHUNK_OVERLAP" (by decide)
  simp only [init_settings, providerDispatch, init_openai, init_ollama,
    init_anthropic, init_gemini, init_azure_openai, setChunkParams,
    readTemperature, readOptInt, readRequestTimeout, ollama_base_url,
    get_bearer_token_provider, h1, h2, h3, h4, h5, h6, h7, h8, h9, h10,
    h11, h12]

theorem registry_endpoint_has_no_effect_witness :
    init_settings [("AZURE_CONTAINER_REGISTRY_ENDPOINT", "https://acr.example"),
        ("MODEL_PROVIDER", "ollama")] SettingsState.initial 0 =
      init_settings [("MODEL_PROVIDER", "ollama")] SettingsState.initial 0 :=
  registry_endpoint_has_no_effect
    [("AZURE_CONTAINER_REGISTRY_ENDPOINT", "https://acr.example"),
      ("MODEL_PROVIDER", "ollama")]
    [("MODEL_PROVIDER", "ollama")] SettingsState.initial 0
    (fun k hk => by
      have hk2 : ("AZURE_CONTAINER_REGISTRY_ENDPOINT" : String) ≠ k := Ne.symm hk
      simp [getenv, List.find?, hk2])

end LlamaSettings

namespace LlamaSettings

/-- **C10**: when `MODEL_PROVIDER` is unset or invalid the error is raised
before any assignment, so the shared settings are returned entirely
unchanged; whereas when the provider step has succeeded and `CHUNK_SIZE`
(or `CHUNK_OVERLAP`) fails to parse, the error state already contains the
provider's generation and embedding clients (and, for a `CHUNK_OVERLAP`
failure, the parsed chunk size as well). -/
theorem init_settings_commit_order (env : Env) (s : SettingsState) (c : Nat) :
    (getenv env "MODEL_PROVIDER" ∉ validProviderTags →
      init_settings env s c =
        .error (.invalidProvider (getenv env "MODEL_PROVIDER"), s, c)) ∧
    (∀ s1 c1, providerDispatch env s c = .ok (s1, c1) →
      s1.llm.isSome = true ∧ s1.embed_model.isSome = true ∧
      (∀ v, getenv env "CHUNK_SIZE" = some v → pyInt v = none →
        init_settings env s c = .error (.invalidNumber v, s1, c1)) ∧
      (∀ w cs v, getenv env "CHUNK_SIZE" = some w → pyInt w = some cs →
        getenv env "CHUNK_OVERLAP" = some v → pyInt v = none →
        init_settings env s c =
          .error (.invalidNumber v, { s1 with chunk_size := some cs }, c1))) := by
  constructor
  · intro h
    exact init_settings_of_dispatch_error env s c _ (providerDispatch_invalid env s c h)
  · intro s1 c1 hd
    obtain ⟨hllm, hemb⟩ := dispatch_ok_clients env s c s1 c1 hd
    refine ⟨hllm, hemb, ?_, ?_⟩
    · intro v hv hp
      rw [init_settings_of_dispatch_ok env s c s1 c1 hd]
      simp only [setChunkParams, hv, Option.getD_some, hp]
    · intro w cs v hw hcs hv hp
      rw [init_settings_of_dispatch_ok env s c s1 c1 hd]
      simp only [setChunkParams, hw, Option.getD_some, hcs, hv, hp]

theorem init_settings_commit_order_witness :
    init_settings [("MODEL_PROVIDER", "nope")] SettingsState.initial 0 =
      .error (.invalidProvider (some "nope"), SettingsState.initial, 0) ∧
    ({ llm := some (.ollama ⟨"http://127.0.0.1:11434", none, DEFAULT_REQUEST_TIMEOUT⟩),
       embed_model := some (.ollama ⟨"http://127.0.0.1:11434", none⟩),
       chunk_size := none, chunk_overlap := none } : SettingsState).llm.isSome = true ∧
    init_settings [("MODEL_PROVIDER", "ollama"), ("CHUNK_SIZE", "abc")]
        SettingsState.initial 0 =
      .error (.invalidNumber "abc",
        { llm := some (.ollama ⟨"http://127.0.0.1:11434", none, DEFAULT_REQUEST_TIMEOUT⟩),
          embed_model := some (.ollama ⟨"http://127.0.0.1:11434", none⟩),
          chunk_size := none, chunk_overlap := none }, 0) :=
  ⟨(init_settings_commit_order [("MODEL_PROVIDER", "nope")] SettingsState.initial 0).1
      (by decide),
   ((init_settings_commit_order [("MODEL_PROVIDER", "ollama"), ("CHUNK_SIZE", "abc")]
      SettingsState.initial 0).2
      { llm := some (.ollama ⟨"http://127.0.0.1:11434", none, DEFAULT_REQUEST_TIMEOUT⟩),
        embed_model := some (.ollama ⟨"http://127.0.0.1:11434", none⟩),
        chunk_size := none, chunk_overlap := none } 0 (by rfl)).1,
   ((init_settings_commit_order [("MODEL_PROVIDER", "ollama"), ("CHUNK_SIZE", "abc")]
      SettingsState.initial 0).2
      { llm := some (.ollama ⟨"http://127.0.0.1:11434", none, DEFAULT_REQUEST_TIMEOUT⟩),
        embed_model := some (.ollama ⟨"http://127.0.0.1:11434", none⟩),
        chunk_size := none, chunk_overlap := none } 0 (by rfl)).2.2.1 "abc"
      (by rfl) (by rfl)⟩

end LlamaSettings
